import Mathlib

/-!
Verification of the RS256-only private_key_jwt token-endpoint wrapper
(`app.js`).  The Express handlers, the client-assertion builder and the
key-set ETag computation are shallowly embedded as pure Lean functions;
the third-party libraries the script calls (`jose` key import and header
decoding, the upstream HTTP exchange performed by `axios`) are modelled
as an explicit environment record of functions, so every theorem
quantifies over their behaviour.  Machine words in the SHA-256 model are
natural numbers reduced modulo 2^32.
-/

namespace PkJwtWrapper

/-! ## SHA-256 and base64, embedding `crypto.createHash("sha256") ... digest("base64")` -/

/-- The word modulus of SHA-256, 2^32. -/
def w32 : Nat := 4294967296

/-- Right rotation of a 32-bit word held in a `Nat`. -/
def rotR32 (n x : Nat) : Nat := ((x >>> n) ||| (x <<< (32 - n))) % w32

/-- The SHA-256 small sigma 0 function. -/
def schedSigma0 (x : Nat) : Nat := (rotR32 7 x) ^^^ (rotR32 18 x) ^^^ (x >>> 3)

/-- The SHA-256 small sigma 1 function. -/
def schedSigma1 (x : Nat) : Nat := (rotR32 17 x) ^^^ (rotR32 19 x) ^^^ (x >>> 10)

/-- The SHA-256 big sigma 0 function. -/
def compSigma0 (x : Nat) : Nat := (rotR32 2 x) ^^^ (rotR32 13 x) ^^^ (rotR32 22 x)

/-- The SHA-256 big sigma 1 function. -/
def compSigma1 (x : Nat) : Nat := (rotR32 6 x) ^^^ (rotR32 11 x) ^^^ (rotR32 25 x)

/-- The SHA-256 choice function. -/
def chFn (x y z : Nat) : Nat := (x &&& y) ^^^ ((x ^^^ (w32 - 1)) &&& z)

/-- The SHA-256 majority function. -/
def majFn (x y z : Nat) : Nat := (x &&& y) ^^^ (x &&& z) ^^^ (y &&& z)

/-- The 64 SHA-256 round constants. -/
def sha256K : List Nat :=
  [1116352408, 1899447441, 3049323471, 3921009573, 961987163,
   1508970993, 2453635748, 2870763221, 3624381080, 310598401,
   607225278, 1426881987, 1925078388, 2162078206, 2614888103,
   3248222580, 3835390401, 4022224774, 264347078, 604807628,
   770255983, 1249150122, 1555081692, 1996064986, 2554220882,
   2821834349, 2952996808, 3210313671, 3336571891, 3584528711,
   113926993, 338241895, 666307205, 773529912, 1294757372,
   1396182291, 1695183700, 1986661051, 2177026350, 2456956037,
   2730485921, 2820302411, 3259730800, 3345764771, 3516065817,
   3600352804, 4094571909, 275423344, 430227734, 506948616,
   659060556, 883997877, 958139571, 1322822218, 1537002063,
   1747873779, 1955562222, 2024104815, 2227730452, 2361852424,
   2428436474, 2756734187, 3204031479, 3329325298]

/-- The initial SHA-256 hash state. -/
def sha256H0 : List Nat :=
  [1779033703, 3144134277, 1013904242, 2773480762,
   1359893119, 2600822924, 528734635, 1541459225]

/-- The SHA-256 padding: append 0x80, zero-fill to 56 mod 64, then the 64-bit
big-endian bit length. -/
def sha256Pad (msg : List Nat) : List Nat :=
  let len := msg.length
  let zeros := (64 - ((len + 9) % 64)) % 64
  let bitLen := len * 8
  msg ++ [0x80] ++ List.replicate zeros 0 ++
    [(bitLen >>> 56) % 256, (bitLen >>> 48) % 256, (bitLen >>> 40) % 256, (bitLen >>> 32) % 256,
     (bitLen >>> 24) % 256, (bitLen >>> 16) % 256, (bitLen >>> 8) % 256, bitLen % 256]

/-- Split a byte list into 64-byte chunks (recursion on an explicit fuel,
the fuel being the list length, so the function is structurally total). -/
def chunks64 : Nat → List Nat → List (List Nat)
  | 0, _ => []
  | _, [] => []
  | Nat.succ fuel, bs => bs.take 64 :: chunks64 fuel (bs.drop 64)

/-- Assemble a 32-bit big-endian word from 4 bytes of a list at offset `i`. -/
def word32At (bs : List Nat) (i : Nat) : Nat :=
  (bs.getD (4 * i) 0) * 16777216 + (bs.getD (4 * i + 1) 0) * 65536 +
    (bs.getD (4 * i + 2) 0) * 256 + bs.getD (4 * i + 3) 0

/-- Message schedule: the 16 block words extended to 64 words. -/
def sha256Schedule (block : List Nat) : List Nat :=
  let w16 := (List.range 16).map (word32At block)
  (List.range 48).foldl
    (fun w i =>
      let t := i + 16
      w ++ [(schedSigma1 (w.getD (t - 2) 0) + w.getD (t - 7) 0 +
             schedSigma0 (w.getD (t - 15) 0) + w.getD (t - 16) 0) % w32])
    w16

/-- One SHA-256 compression round. -/
def sha256Round (st : List Nat) (kw : Nat × Nat) : List Nat :=
  let a := st.getD 0 0
  let b := st.getD 1 0
  let c := st.getD 2 0
  let d := st.getD 3 0
  let e := st.getD 4 0
  let f := st.getD 5 0
  let g := st.getD 6 0
  let h := st.getD 7 0
  let t1 := (h + compSigma1 e + chFn e f g + kw.1 + kw.2) % w32
  let t2 := (compSigma0 a + majFn a b c) % w32
  [(t1 + t2) % w32, a, b, c, (d + t1) % w32, e, f, g]

/-- Process one 64-byte block into the running hash state. -/
def sha256Block (hs : List Nat) (block : List Nat) : List Nat :=
  let ws := sha256Schedule block
  let st := (sha256K.zip ws).foldl sha256Round hs
  (hs.zip st).map (fun p => (p.1 + p.2) % w32)

/-- Full SHA-256 of a byte list, as the 32-byte digest. -/
def sha256 (msg : List Nat) : List Nat :=
  let padded := sha256Pad msg
  let hs := (chunks64 padded.length padded).foldl sha256Block sha256H0
  hs.flatMap (fun h => [(h >>> 24) % 256, (h >>> 16) % 256, (h >>> 8) % 256, h % 256])

/-- The UTF-8 encoding of a Unicode scalar value. -/
def utf8Enc (n : Nat) : List Nat :=
  if n < 128 then [n]
  else if n < 2048 then [192 + n / 64, 128 + n % 64]
  else if n < 65536 then [224 + n / 4096, 128 + (n / 64) % 64, 128 + n % 64]
  else [240 + n / 262144, 128 + (n / 4096) % 64, 128 + (n / 64) % 64, 128 + n % 64]

/-- The UTF-8 bytes of a string. -/
def utf8Bytes (s : String) : List Nat :=
  s.data.flatMap (fun c => utf8Enc c.toNat)

/-- The standard base64 alphabet. -/
def b64Alphabet : List Char :=
  "ABCDEFGHIJKLMNOPQRSTUVWXYZabcdefghijklmnopqrstuvwxyz0123456789+/".data

/-- Character of the standard base64 alphabet at a 6-bit index. -/
def b64Char (n : Nat) : Char := b64Alphabet.getD n 'A'

/-- Standard base64 encoding with padding, as produced by
`Buffer.digest("base64")`. -/
def base64Encode : List Nat → String
  | a :: b :: c :: rest =>
      String.mk [b64Char (a / 4), b64Char ((a % 4) * 16 + b / 16),
                 b64Char ((b % 16) * 4 + c / 64), b64Char (c % 64)] ++ base64Encode rest
  | [a, b] =>
      String.mk [b64Char (a / 4), b64Char ((a % 4) * 16 + b / 16),
                 b64Char ((b % 16) * 4), '=']
  | [a] => String.mk [b64Char (a / 4), b64Char ((a % 4) * 16), '=', '=']
  | [] => ""

/-- Embedding of
`crypto.createHash("sha256").update(JSON.stringify(relyingPartyJWKS)).digest("base64")`:
the key-set cache validator, a function of the serialized key-set content.
The JWKS file `spkis/relyingPartyJWKS.json` itself is configuration data
not contained in the sources, so its serialized content is the `jwksJson`
parameter. -/
def jwksETag (jwksJson : String) : String :=
  base64Encode (sha256 (utf8Bytes jwksJson))

/-! ## Data model

Request-body fields and environment variables are `Option String`:
`none` is an absent field (JavaScript `undefined`), `some s` a present
string.  JavaScript truthiness of such a value (used by the guards
`if (!client_id)`, `client_secret && ...`, `code_verifier && ...`) is
`truthy`. -/

/-- JavaScript truthiness of a possibly-absent string: `undefined` and the
empty string are falsy, every other string truthy. -/
def truthy : Option String → Bool
  | none => false
  | some s => !(s == "")

/-- Rendering of a possibly-absent string inside a JS template literal
(`undefined` renders as the text "undefined"). -/
def renderOpt : Option String → String
  | none => "undefined"
  | some s => s

/-- The environment-variable configuration (`process.env`) as read by the
handlers.  `RP_CLIENT_ASSERTION_SIGNING_ALG` is a plain `String` because
startup defaults it to "RS256" when unset; `IDP_DOMAIN` and
`IDP_TOKEN_ENDPOINT` are the configured upstream coordinates.
`RP_PRIVATE_KEY` and `RP_KID` model the dynamic lookups
`context["RP_PRIVATE_KEY_" + alg]` and `context["RP_KID_" + alg]`. -/
structure Ctx where
  RP_ID : Option String
  A0_CLIENT_SECRET : Option String
  IDP_DOMAIN : String
  IDP_TOKEN_ENDPOINT : String
  RP_CLIENT_ASSERTION_SIGNING_ALG : String
  RP_PRIVATE_KEY : String → Option String
  RP_KID : String → Option String

/-- The parsed body of a `POST /token` request. -/
structure ReqBody where
  client_id : Option String
  code : Option String
  redirect_uri : Option String
  code_verifier : Option String
  client_secret : Option String
deriving DecidableEq, Repr

/-- Result of `importPKCS8` as observed through the `try/catch` in
`loadPrivateKeyForClientAssertion`: either a usable key handle or the
caught error, which the source returns as an ordinary value. -/
inductive KeyOrErr where
  | key (handle : String)
  | err (msg : String)
deriving DecidableEq, Repr

/-- The payload and protected header of a signed client assertion, as
assembled by the `SignJWT` builder chain.  `jti` is the model of the
`uuid.v4()` draw (see `generatePrivateKeyJWTForClientAssertion`). -/
structure ClientAssertion where
  alg : String
  kid : Option String
  iat : Nat
  iss : Option String
  sub : Option String
  aud : List String
  exp : Nat
  jti : Nat
deriving DecidableEq, Repr

/-- The value assigned to `client_assertion`: the signed JWT on success,
or, because both helper functions catch and *return* their exceptions,
the caught Error object itself. -/
inductive JwtOrErr where
  | jwt (a : ClientAssertion)
  | errObj (msg : String)
deriving DecidableEq, Repr

/-- The body of an upstream HTTP-success response (`response.data`):
the optional `id_token` field, plus all fields the wrapper never
inspects, represented opaquely by `rest` so that verbatim relaying is
expressible. -/
structure UpstreamBody where
  id_token : Option String
  rest : String
deriving DecidableEq, Repr

/-- The upstream POST composed by the `/token` handler (the `options`
object handed to `axios.request`, with `data` at the field level before
`qs.stringify`). -/
structure UpstreamRequest where
  url : String
  grant_type : String
  client_id : Option String
  client_assertion_type : String
  client_assertion : JwtOrErr
  code : Option String
  redirect_uri : Option String
  code_verifier : Option String
deriving DecidableEq, Repr

/-- Outcome of the upstream exchange as `axios` exposes it: a 2xx
response with a body, an HTTP error carrying `error.response.status`
and `error.response.data`, or a network-level failure carrying only
`error.message`. -/
inductive UpstreamOutcome where
  | success (body : UpstreamBody)
  | httpError (status : Nat) (body : String)
  | networkError (msg : String)
deriving DecidableEq, Repr

/-- The decoded ID-token header: its `alg` member, absent when the parsed
JSON value has no string `alg` field. -/
structure JwtHeader where
  alg : Option String
deriving DecidableEq, Repr

/-- Body of a wrapper response on `/token`: a plain text/message body, or
the upstream response body relayed verbatim. -/
inductive RespBody where
  | text (s : String)
  | data (b : UpstreamBody)
deriving DecidableEq, Repr

/-- An HTTP response of the `/token` handler. -/
structure Resp where
  status : Nat
  body : RespBody
deriving DecidableEq, Repr

/-- Full result of one `/token` request: the response, the upstream
request that was sent (if any), and the uuid-supply state after the
call. -/
structure TokenResult where
  resp : Resp
  sent : Option UpstreamRequest
  uuidAfter : Nat
deriving DecidableEq, Repr

/-- The external-library environment: `importPKCS8` is the `jose` PKCS8
parser (PEM text and algorithm to key handle, or the thrown error
message), `decodeJsonHeader` is `JSON.parse(Buffer.from(seg, "base64"))`
followed by reading `.alg` (error = the thrown parse-exception message),
and `upstream` is the identity provider reached through `axios`. -/
structure Env where
  importPKCS8 : String → String → Except String String
  decodeJsonHeader : String → Except String JwtHeader
  upstream : UpstreamRequest → UpstreamOutcome

/-! ## The assertion builder and the `/token` handler -/

/-- The TypeError message thrown when `.replace` is called on an absent
environment variable (Node quotes the property name in its message; the
quotes are immaterial here). -/
def replaceOnUndefinedMsg : String := "Cannot read properties of undefined (reading replace)"

/-- The TypeError message thrown when `.split` is called on an absent
`id_token` (Node quotes the property name in its message; the quotes are
immaterial here). -/
def splitOnUndefinedMsg : String := "Cannot read properties of undefined (reading split)"

/-- Embedding of `loadPrivateKeyForClientAssertion`: look up the PEM for
the configured algorithm, normalize newlines, import it via `jose`.  The
source wraps the body in `try/catch` and *returns* the caught error `e`,
so a parse failure yields `KeyOrErr.err` rather than a rejection. -/
def loadPrivateKeyForClientAssertion (env : Env) (ctx : Ctx) : KeyOrErr :=
  match ctx.RP_PRIVATE_KEY ctx.RP_CLIENT_ASSERTION_SIGNING_ALG with
  | none => .err replaceOnUndefinedMsg
  | some pem =>
    match env.importPKCS8 (pem.replace "\n" "\r\n") ctx.RP_CLIENT_ASSERTION_SIGNING_ALG with
    | .ok k => .key k
    | .error e => .err e

/-- Embedding of `generatePrivateKeyJWTForClientAssertion`.

Inputs beyond the configuration: `now` is the wall-clock second at which
the builder chain runs (`setIssuedAt()` uses it for `iat`,
`setExpirationTime("2m")` yields `now + 120`), and `us` is the state of
the uuid supply.  `uuid.v4()` is modelled as an ideal fresh-identifier
supply: the process state counts draws and each draw returns its index, so
distinct draws return distinct values — the standard idealization of a
122-bit random UUID.  The builder methods, `setJti(uuid.v4())` included,
all run before `.sign(key)`, so the draw is consumed in both branches.
When the key value is a returned Error (see
`loadPrivateKeyForClientAssertion`), `.sign` throws, the `catch` block
catches, and the source *returns* that error as the function value:
`JwtOrErr.errObj` (carrying the originating message, which the program
never reads). -/
def generatePrivateKeyJWTForClientAssertion (env : Env) (ctx : Ctx) (now us : Nat) :
    JwtOrErr × Nat :=
  match loadPrivateKeyForClientAssertion env ctx with
  | .key _ =>
      (.jwt { alg := ctx.RP_CLIENT_ASSERTION_SIGNING_ALG,
              kid := ctx.RP_KID ctx.RP_CLIENT_ASSERTION_SIGNING_ALG,
              iat := now,
              iss := ctx.RP_ID,
              sub := ctx.RP_ID,
              aud := ["https://" ++ ctx.IDP_DOMAIN ++ "/", "https://" ++ ctx.IDP_DOMAIN ++ "/token"],
              exp := now + 120,
              jti := us }, us + 1)
  | .err e => (.errObj e, us + 1)

/-- The upstream request the handler composes (the `data` object plus the
`options.url`).  `code_verifier` is spread in only when truthy. -/
def builtRequest (ctx : Ctx) (body : ReqBody) (ca : JwtOrErr) : UpstreamRequest :=
  { url := "https://" ++ ctx.IDP_DOMAIN ++ ctx.IDP_TOKEN_ENDPOINT,
    grant_type := "authorization_code",
    client_id := ctx.RP_ID,
    client_assertion_type := "urn:ietf:params:oauth:client-assertion-type:jwt-bearer",
    client_assertion := ca,
    code := body.code,
    redirect_uri := body.redirect_uri,
    code_verifier := if truthy body.code_verifier then body.code_verifier else none }

/-- The upstream request a given `/token` invocation sends when it reaches
the exchange. -/
def sentRequest (env : Env) (ctx : Ctx) (now us : Nat) (body : ReqBody) : UpstreamRequest :=
  builtRequest ctx body (generatePrivateKeyJWTForClientAssertion env ctx now us).1

/-- Embedding of
`const header = JSON.parse(decode(id_token.split(".")[0]))` with the
possible exceptions captured in `Except`: an absent `id_token` throws a
TypeError on `.split`, and an undecodable first segment makes
`JSON.parse` throw. -/
def extractHeaderAlg (env : Env) (b : UpstreamBody) : Except String JwtHeader :=
  match b.id_token with
  | none => .error splitOnUndefinedMsg
  | some tok => env.decodeJsonHeader ((tok.splitOn ".").headD "")

/-- The body of the handler's `try` block after the assertion is built:
perform the upstream exchange for request `r` and map the outcome, with
the `catch` clause folded in (`error.response` present relays status and
body; otherwise 500 with the message, which also covers the exceptions of
the header-parsing step). -/
def exchangeStep (env : Env) (r : UpstreamRequest) (usAfter : Nat) : TokenResult :=
  match env.upstream r with
  | .success b =>
    match extractHeaderAlg env b with
    | .error m => ⟨⟨500, .text m⟩, some r, usAfter⟩
    | .ok h =>
      if h.alg == some "RS256" then ⟨⟨200, .data b⟩, some r, usAfter⟩
      else ⟨⟨500, .text ("Unsupported signing algorithm: " ++ renderOpt h.alg)⟩, some r, usAfter⟩
  | .httpError st b => ⟨⟨st, .text b⟩, some r, usAfter⟩
  | .networkError m => ⟨⟨500, .text m⟩, some r, usAfter⟩

/-- Embedding of the `POST /token` Express handler.  The guards are the
source ones in source order: `if (!client_id)`, then
`if (client_secret && client_secret !== context.A0_CLIENT_SECRET)`
(strict JS inequality of possibly-undefined values is `Option`
inequality), then `if (context.RP_ID === client_id)`.  `axios` throwing
on non-2xx is the `httpError` outcome, routed through the `catch` block
(`error.response` present); a throw with no response is `networkError`,
answered 500 with the message. -/
def tokenHandler (env : Env) (ctx : Ctx) (now us : Nat) (body : ReqBody) : TokenResult :=
  if !(truthy body.client_id) then
    ⟨⟨400, .text "Missing client_id"⟩, none, us⟩
  else if truthy body.client_secret && (body.client_secret != ctx.A0_CLIENT_SECRET) then
    ⟨⟨400, .text "client auth failed by auth0!"⟩, none, us⟩
  else if ctx.RP_ID == body.client_id then
    let g := generatePrivateKeyJWTForClientAssertion env ctx now us
    exchangeStep env (builtRequest ctx body g.1) g.2
  else
    ⟨⟨401, .text "Invalid request, client_id is incorrect!"⟩, none, us⟩

/-! ## The `/.well-known/keys` handler -/

/-- A response of the keys endpoint: status, optional body (the
serialized key set), and the three headers this handler sets (none are
set on the 304 path, which returns before `res.set`). -/
structure KeysResp where
  status : Nat
  body : Option String
  cacheControl : Option String
  contentType : Option String
  etag : Option String
deriving DecidableEq, Repr

/-- Embedding of the `GET /.well-known/keys` Express handler: a 304 with
empty body when the `If-None-Match` header equals the precomputed
`jwksETag`, otherwise 200 with the cache headers and the JSON key set.
`res.json(relyingPartyJWKS)` serializes the same object the ETag hashed,
so the body is the same `jwksJson` string. -/
def keysHandler (jwksJson : String) (ifNoneMatch : Option String) : KeysResp :=
  if ifNoneMatch == some (jwksETag jwksJson) then
    ⟨304, none, none, none, none⟩
  else
    ⟨200, some jwksJson, some "public, max-age=3600", some "application/json",
      some (jwksETag jwksJson)⟩

/-- Modelled from the spec: the audience list the specification claims for
the client assertion — the IdP base URL and the *configured*
token-endpoint URL (`https://IDP_DOMAIN` followed by
`IDP_TOKEN_ENDPOINT`).  Stated for comparison with what
`generatePrivateKeyJWTForClientAssertion` actually builds. -/
def specClaimedAudience (ctx : Ctx) : List String :=
  ["https://" ++ ctx.IDP_DOMAIN ++ "/", "https://" ++ ctx.IDP_DOMAIN ++ ctx.IDP_TOKEN_ENDPOINT]

/-- The audience list of a produced assertion, `none` when the value is a
returned error object. -/
def audOf : JwtOrErr → Option (List String)
  | .jwt a => some a.aud
  | .errObj _ => none

/-- The `client_assertion` field of the upstream request a call sent, if
one was sent. -/
def assertionOfSent (t : TokenResult) : Option JwtOrErr :=
  t.sent.map (fun r => r.client_assertion)

/-! ## Concrete fixtures for witnesses and counterexamples -/

/-- A fully configured environment record with a token-endpoint path
other than "/token". -/
def ctx0 : Ctx :=
  { RP_ID := some "rp1",
    A0_CLIENT_SECRET := some "shhh",
    IDP_DOMAIN := "idp.example.com",
    IDP_TOKEN_ENDPOINT := "/oauth/token",
    RP_CLIENT_ASSERTION_SIGNING_ALG := "RS256",
    RP_PRIVATE_KEY := fun _ => some "PEMDATA",
    RP_KID := fun _ => some "kid1" }

/-- A valid token request for `ctx0` (correct client id, no secret). -/
def reqValid : ReqBody :=
  { client_id := some "rp1", code := some "abc", redirect_uri := some "https://cb",
    code_verifier := none, client_secret := none }

/-- Library environment whose key import succeeds, parameterized by the
header-decode result and the upstream outcome. -/
def envWith (hdr : Except String JwtHeader) (o : UpstreamOutcome) : Env :=
  { importPKCS8 := fun _ _ => .ok "keyhandle",
    decodeJsonHeader := fun _ => hdr,
    upstream := fun _ => o }

/-- Library environment whose key import fails, with an upstream that
answers 401 to whatever it is sent. -/
def badKeyEnv : Env :=
  { importPKCS8 := fun _ _ => .error "Invalid PEM",
    decodeJsonHeader := fun _ => .ok ⟨some "RS256"⟩,
    upstream := fun _ => .httpError 401 "invalid_client" }

/-- A `/token` request without a `client_id`. -/
def reqNoId : ReqBody :=
  { client_id := none, code := some "abc", redirect_uri := some "https://cb",
    code_verifier := none, client_secret := none }

/-- A `/token` request with the correct client id but a wrong secret. -/
def reqBadSecret : ReqBody :=
  { client_id := some "rp1", code := some "abc", redirect_uri := some "https://cb",
    code_verifier := none, client_secret := some "wrong" }

/-- A `/token` request whose client id is not the configured one. -/
def reqWrongId : ReqBody :=
  { client_id := some "other", code := some "abc", redirect_uri := some "https://cb",
    code_verifier := none, client_secret := none }

/-- An upstream success body carrying an ID token. -/
def bodyWithTok : UpstreamBody := { id_token := some "hseg.pseg.sseg", rest := "tokens" }

/-- An upstream success body with no `id_token` field. -/
def bodyNoTok : UpstreamBody := { id_token := none, rest := "tokens" }

/-! ## Helper lemmas -/

/-- The exchange step always records the request it sent. -/
theorem exchangeStep_sent (env : Env) (r : UpstreamRequest) (u : Nat) :
    (exchangeStep env r u).sent = some r := by
  unfold exchangeStep
  split
  · split
    · rfl
    · split <;> rfl
  · rfl
  · rfl

/-- When the three validation guards pass, the handler is the exchange
step on the request it built. -/
theorem tokenHandler_valid_eq (env : Env) (ctx : Ctx) (now us : Nat) (body : ReqBody)
    (hcid : truthy body.client_id = true)
    (hsec : (truthy body.client_secret && (body.client_secret != ctx.A0_CLIENT_SECRET)) = false)
    (hid : (ctx.RP_ID == body.client_id) = true) :
    tokenHandler env ctx now us body =
      exchangeStep env (sentRequest env ctx now us body)
        (generatePrivateKeyJWTForClientAssertion env ctx now us).2 := by
  simp [tokenHandler, sentRequest, hcid, hsec, hid]

/-- The missing-client_id branch of the handler. -/
theorem tokenHandler_missing (env : Env) (ctx : Ctx) (now us : Nat) (body : ReqBody)
    (h : truthy body.client_id = false) :
    tokenHandler env ctx now us body = ⟨⟨400, .text "Missing client_id"⟩, none, us⟩ := by
  simp [tokenHandler, h]

/-- The failed-shared-secret branch of the handler. -/
theorem tokenHandler_authfail (env : Env) (ctx : Ctx) (now us : Nat) (body : ReqBody)
    (h1 : truthy body.client_id = true)
    (h2 : (truthy body.client_secret && (body.client_secret != ctx.A0_CLIENT_SECRET)) = true) :
    tokenHandler env ctx now us body = ⟨⟨400, .text "client auth failed by auth0!"⟩, none, us⟩ := by
  simp [tokenHandler, h1, h2]

/-- The wrong-client_id branch of the handler. -/
theorem tokenHandler_unauthorized (env : Env) (ctx : Ctx) (now us : Nat) (body : ReqBody)
    (h1 : truthy body.client_id = true)
    (h2 : (truthy body.client_secret && (body.client_secret != ctx.A0_CLIENT_SECRET)) = false)
    (h3 : (ctx.RP_ID == body.client_id) = false) :
    tokenHandler env ctx now us body =
      ⟨⟨401, .text "Invalid request, client_id is incorrect!"⟩, none, us⟩ := by
  simp [tokenHandler, h1, h2, h3]

/-- Reduction of the assertion builder when the key loads. -/
theorem generate_key_eq (env : Env) (ctx : Ctx) (now us : Nat) (k : String)
    (hk : loadPrivateKeyForClientAssertion env ctx = .key k) :
    generatePrivateKeyJWTForClientAssertion env ctx now us =
      (.jwt { alg := ctx.RP_CLIENT_ASSERTION_SIGNING_ALG,
              kid := ctx.RP_KID ctx.RP_CLIENT_ASSERTION_SIGNING_ALG,
              iat := now,
              iss := ctx.RP_ID,
              sub := ctx.RP_ID,
              aud := ["https://" ++ ctx.IDP_DOMAIN ++ "/",
                      "https://" ++ ctx.IDP_DOMAIN ++ "/token"],
              exp := now + 120,
              jti := us }, us + 1) := by
  unfold generatePrivateKeyJWTForClientAssertion
  rw [hk]

/-- Reduction of the assertion builder when the key fails to load: the
caught error is returned as the value, and the uuid draw is still
consumed. -/
theorem generate_err_eq (env : Env) (ctx : Ctx) (now us : Nat) (e : String)
    (he : loadPrivateKeyForClientAssertion env ctx = .err e) :
    generatePrivateKeyJWTForClientAssertion env ctx now us = (.errObj e, us + 1) := by
  unfold generatePrivateKeyJWTForClientAssertion
  rw [he]

/-- Every call of the assertion builder advances the uuid supply by one. -/
theorem generate_state (env : Env) (ctx : Ctx) (now us : Nat) :
    (generatePrivateKeyJWTForClientAssertion env ctx now us).2 = us + 1 := by
  unfold generatePrivateKeyJWTForClientAssertion
  cases hk : loadPrivateKeyForClientAssertion env ctx <;> rfl

/-! ## Claims -/

/-- Claim C1, counterexample: with `IDP_TOKEN_ENDPOINT = "/oauth/token"`,
the assertion's audience is the hard-coded
`[https://IDP_DOMAIN/, https://IDP_DOMAIN/token]`, which differs from the
audience the claim states (base URL plus the *configured* token-endpoint
path), so the claim fails for a token-endpoint path other than "/token". -/
theorem claim_C1_counterexample :
    audOf (generatePrivateKeyJWTForClientAssertion
        (envWith (.ok ⟨some "RS256"⟩) (.networkError "down")) ctx0 0 0).1 =
      some ["https://idp.example.com/", "https://idp.example.com/token"] ∧
    specClaimedAudience ctx0 =
      ["https://idp.example.com/", "https://idp.example.com/oauth/token"] ∧
    audOf (generatePrivateKeyJWTForClientAssertion
        (envWith (.ok ⟨some "RS256"⟩) (.networkError "down")) ctx0 0 0).1 ≠
      some (specClaimedAudience ctx0) := by
  refine ⟨rfl, rfl, ?_⟩
  decide

/-- Claim C1 (amended): the audience list of every client assertion that
issuance produces is exactly `https://IDP_DOMAIN/` followed by
`https://IDP_DOMAIN/token`; it coincides with the configured
token-endpoint URL only when `IDP_TOKEN_ENDPOINT` is "/token". -/
theorem claim_C1_audience_hardcoded (env : Env) (ctx : Ctx) (now us : Nat) (a : ClientAssertion)
    (h : (generatePrivateKeyJWTForClientAssertion env ctx now us).1 = .jwt a) :
    a.aud = ["https://" ++ ctx.IDP_DOMAIN ++ "/", "https://" ++ ctx.IDP_DOMAIN ++ "/token"] := by
  cases hk : loadPrivateKeyForClientAssertion env ctx with
  | key k =>
    rw [generate_key_eq env ctx now us k hk] at h
    injection h with h2
    subst h2
    rfl
  | err e =>
    rw [generate_err_eq env ctx now us e hk] at h
    exact JwtOrErr.noConfusion h

/-- Witness for C1 (amended) at a concrete configuration. -/
theorem claim_C1_audience_hardcoded_witness :
    (ClientAssertion.mk "RS256" (some "kid1") 3 (some "rp1") (some "rp1")
        ["https://idp.example.com/", "https://idp.example.com/token"] 123 0).aud =
      ["https://" ++ ctx0.IDP_DOMAIN ++ "/", "https://" ++ ctx0.IDP_DOMAIN ++ "/token"] :=
  claim_C1_audience_hardcoded (envWith (.ok ⟨some "RS256"⟩) (.networkError "down")) ctx0 3 0
    (ClientAssertion.mk "RS256" (some "kid1") 3 (some "rp1") (some "rp1")
      ["https://idp.example.com/", "https://idp.example.com/token"] 123 0) rfl

/-- Claim C2, code-bug evidence: when the private key fails to import
(`importPKCS8` rejects it), the helper functions catch and *return* the
error, so the handler does not answer 500; it sends the upstream request
anyway, with the caught error object in the `client_assertion` field,
and relays whatever the identity provider answers (here its 401). -/
theorem claim_C2_bug_behavior :
    assertionOfSent (tokenHandler badKeyEnv ctx0 0 0 reqValid) =
      some (.errObj "Invalid PEM") ∧
    (tokenHandler badKeyEnv ctx0 0 0 reqValid).resp = ⟨401, .text "invalid_client"⟩ :=
  ⟨rfl, rfl⟩

/-- Claim C3: every issued assertion has issuer and subject equal to the
configured relying-party id and expiration exactly 120 seconds after its
issued-at time, and two issuances in the same process (the second drawing
from the uuid supply the first left behind) have distinct jti values. -/
theorem claim_C3_assertion_claims (env : Env) (ctx : Ctx) (now1 now2 us : Nat) (rid : String)
    (a1 a2 : ClientAssertion)
    (hrid : ctx.RP_ID = some rid)
    (h1 : (generatePrivateKeyJWTForClientAssertion env ctx now1 us).1 = .jwt a1)
    (h2 : (generatePrivateKeyJWTForClientAssertion env ctx now2
        (generatePrivateKeyJWTForClientAssertion env ctx now1 us).2).1 = .jwt a2) :
    a1.iss = some rid ∧ a1.sub = some rid ∧ a1.exp = a1.iat + 120 ∧ a1.jti ≠ a2.jti := by
  rw [generate_state env ctx now1 us] at h2
  cases hk : loadPrivateKeyForClientAssertion env ctx with
  | key k =>
    rw [generate_key_eq env ctx now1 us k hk] at h1
    rw [generate_key_eq env ctx now2 (us + 1) k hk] at h2
    injection h1 with e1
    injection h2 with e2
    subst e1
    subst e2
    exact ⟨by rw [hrid], by rw [hrid], rfl, by show us ≠ us + 1; omega⟩
  | err e =>
    rw [generate_err_eq env ctx now1 us e hk] at h1
    exact JwtOrErr.noConfusion h1

/-- Witness for C3: two issuances at times 5 and 9 from a fresh supply. -/
theorem claim_C3_assertion_claims_witness :
    (ClientAssertion.mk "RS256" (some "kid1") 5 (some "rp1") (some "rp1")
        ["https://idp.example.com/", "https://idp.example.com/token"] 125 0).iss = some "rp1" ∧
    (ClientAssertion.mk "RS256" (some "kid1") 5 (some "rp1") (some "rp1")
        ["https://idp.example.com/", "https://idp.example.com/token"] 125 0).sub = some "rp1" ∧
    (ClientAssertion.mk "RS256" (some "kid1") 5 (some "rp1") (some "rp1")
        ["https://idp.example.com/", "https://idp.example.com/token"] 125 0).exp =
      (ClientAssertion.mk "RS256" (some "kid1") 5 (some "rp1") (some "rp1")
        ["https://idp.example.com/", "https://idp.example.com/token"] 125 0).iat + 120 ∧
    (ClientAssertion.mk "RS256" (some "kid1") 5 (some "rp1") (some "rp1")
        ["https://idp.example.com/", "https://idp.example.com/token"] 125 0).jti ≠
      (ClientAssertion.mk "RS256" (some "kid1") 9 (some "rp1") (some "rp1")
        ["https://idp.example.com/", "https://idp.example.com/token"] 129 1).jti :=
  claim_C3_assertion_claims (envWith (.ok ⟨some "RS256"⟩) (.networkError "down")) ctx0 5 9 0 "rp1"
    (ClientAssertion.mk "RS256" (some "kid1") 5 (some "rp1") (some "rp1")
      ["https://idp.example.com/", "https://idp.example.com/token"] 125 0)
    (ClientAssertion.mk "RS256" (some "kid1") 9 (some "rp1") (some "rp1")
      ["https://idp.example.com/", "https://idp.example.com/token"] 129 1)
    rfl rfl rfl

/-- Claim C6: a `GET /.well-known/keys` request whose `If-None-Match`
header equals the current key-set validator gets a 304 with empty body
and no headers from this handler; any other request (header absent or
different) gets 200 with the full key-set body, `Cache-Control`,
`Content-Type: application/json`, and an `ETag` equal to the computed
validator. -/
theorem claim_C6_keys_caching (jwks : String) (inm : Option String) :
    (inm = some (jwksETag jwks) → keysHandler jwks inm = ⟨304, none, none, none, none⟩) ∧
    (inm ≠ some (jwksETag jwks) →
      keysHandler jwks inm =
        ⟨200, some jwks, some "public, max-age=3600", some "application/json",
          some (jwksETag jwks)⟩) := by
  constructor <;> intro h <;> simp [keysHandler, h]

/-- Witness for C6: a matching validator yields 304, an absent header
yields 200 with the validator as ETag. -/
theorem claim_C6_keys_caching_witness :
    keysHandler "kset" (some (jwksETag "kset")) = ⟨304, none, none, none, none⟩ ∧
    keysHandler "kset" none =
      ⟨200, some "kset", some "public, max-age=3600", some "application/json",
        some (jwksETag "kset")⟩ :=
  ⟨(claim_C6_keys_caching "kset" (some (jwksETag "kset"))).1 rfl,
   (claim_C6_keys_caching "kset" none).2 (fun h => Option.noConfusion h)⟩

/-- Claim C8: the key-set cache validator is a deterministic pure
function of the serialized key-set content alone — any two computations
over identical key material (repeated calls, or independent processes)
yield the identical validator. -/
theorem claim_C8_etag_deterministic (s t : String) (h : s = t) : jwksETag s = jwksETag t := by
  rw [h]

/-- Witness for C8 at concrete key material. -/
theorem claim_C8_etag_deterministic_witness : jwksETag "kmaterial" = jwksETag "kmaterial" :=
  claim_C8_etag_deterministic "kmaterial" "kmaterial" rfl

/-- Claim C4: the `/token` validation checks run fail-fast in source
order.  A request without a (truthy) `client_id` gets 400 with body
"Missing client_id"; otherwise a request supplying a (truthy)
`client_secret` different from the configured shared secret gets 400,
for every `client_id` — the correct one included; otherwise a request
whose `client_id` differs from the configured relying-party id gets
401. -/
theorem claim_C4_validation_order (env : Env) (ctx : Ctx) (now us : Nat) (body : ReqBody) :
    (truthy body.client_id = false →
      tokenHandler env ctx now us body = ⟨⟨400, .text "Missing client_id"⟩, none, us⟩) ∧
    (truthy body.client_id = true → truthy body.client_secret = true →
      body.client_secret ≠ ctx.A0_CLIENT_SECRET →
      tokenHandler env ctx now us body =
        ⟨⟨400, .text "client auth failed by auth0!"⟩, none, us⟩) ∧
    (truthy body.client_id = true →
      (truthy body.client_secret && (body.client_secret != ctx.A0_CLIENT_SECRET)) = false →
      ctx.RP_ID ≠ body.client_id →
      tokenHandler env ctx now us body =
        ⟨⟨401, .text "Invalid request, client_id is incorrect!"⟩, none, us⟩) := by
  refine ⟨fun h1 => tokenHandler_missing env ctx now us body h1,
          fun h1 h2 h3 => tokenHandler_authfail env ctx now us body h1 (by simp [h2, h3]),
          fun h1 h2 h3 => tokenHandler_unauthorized env ctx now us body h1 h2 (by simp [h3])⟩

/-- Witness for C4: the three failure modes at concrete requests against
`ctx0` (relying-party id "rp1", shared secret "shhh"). -/
theorem claim_C4_validation_order_witness :
    tokenHandler (envWith (.ok ⟨some "RS256"⟩) (.networkError "down")) ctx0 0 7 reqNoId =
      ⟨⟨400, .text "Missing client_id"⟩, none, 7⟩ ∧
    tokenHandler (envWith (.ok ⟨some "RS256"⟩) (.networkError "down")) ctx0 0 7 reqBadSecret =
      ⟨⟨400, .text "client auth failed by auth0!"⟩, none, 7⟩ ∧
    tokenHandler (envWith (.ok ⟨some "RS256"⟩) (.networkError "down")) ctx0 0 7 reqWrongId =
      ⟨⟨401, .text "Invalid request, client_id is incorrect!"⟩, none, 7⟩ :=
  ⟨(claim_C4_validation_order (envWith (.ok ⟨some "RS256"⟩) (.networkError "down"))
      ctx0 0 7 reqNoId).1 rfl,
   (claim_C4_validation_order (envWith (.ok ⟨some "RS256"⟩) (.networkError "down"))
      ctx0 0 7 reqBadSecret).2.1 rfl rfl (by decide),
   (claim_C4_validation_order (envWith (.ok ⟨some "RS256"⟩) (.networkError "down"))
      ctx0 0 7 reqWrongId).2.2 rfl rfl (by decide)⟩

/-- Claim C5: on an upstream HTTP success whose ID-token header parses,
an RS256 algorithm makes the wrapper relay the full upstream body
verbatim with status 200, and any other algorithm yields status 500 with
the "Unsupported signing algorithm" message — a body that is a function
of the declared algorithm alone, so no other part of the upstream token
body reaches the caller. -/
theorem claim_C5_alg_gate (env : Env) (ctx : Ctx) (now us : Nat) (body : ReqBody)
    (b : UpstreamBody) (h : JwtHeader)
    (hcid : truthy body.client_id = true)
    (hsec : (truthy body.client_secret && (body.client_secret != ctx.A0_CLIENT_SECRET)) = false)
    (hid : (ctx.RP_ID == body.client_id) = true)
    (hup : env.upstream (sentRequest env ctx now us body) = .success b)
    (hhd : extractHeaderAlg env b = .ok h) :
    (h.alg = some "RS256" → (tokenHandler env ctx now us body).resp = ⟨200, .data b⟩) ∧
    (h.alg ≠ some "RS256" →
      (tokenHandler env ctx now us body).resp =
        ⟨500, .text ("Unsupported signing algorithm: " ++ renderOpt h.alg)⟩) := by
  rw [tokenHandler_valid_eq env ctx now us body hcid hsec hid]
  constructor <;> intro halg <;> simp [exchangeStep, hup, hhd, halg]

/-- Witness for C5: an RS256 header is relayed with 200; an HS256 header
is answered 500 with the unsupported-algorithm message. -/
theorem claim_C5_alg_gate_witness :
    (tokenHandler (envWith (.ok ⟨some "RS256"⟩) (.success bodyWithTok)) ctx0 0 0 reqValid).resp =
      ⟨200, .data bodyWithTok⟩ ∧
    (tokenHandler (envWith (.ok ⟨some "HS256"⟩) (.success bodyWithTok)) ctx0 0 0 reqValid).resp =
      ⟨500, .text ("Unsupported signing algorithm: " ++ renderOpt (some "HS256"))⟩ :=
  ⟨(claim_C5_alg_gate (envWith (.ok ⟨some "RS256"⟩) (.success bodyWithTok)) ctx0 0 0 reqValid
      bodyWithTok ⟨some "RS256"⟩ rfl rfl rfl rfl rfl).1 rfl,
   (claim_C5_alg_gate (envWith (.ok ⟨some "HS256"⟩) (.success bodyWithTok)) ctx0 0 0 reqValid
      bodyWithTok ⟨some "HS256"⟩ rfl rfl rfl rfl rfl).2 (by decide)⟩

/-- Claim C7: when the identity provider answers with a non-success
status, the wrapper relays that status and body verbatim; when the
exchange fails at network level with no response, the wrapper answers
500 with the failure message. -/
theorem claim_C7_upstream_error_relay (env : Env) (ctx : Ctx) (now us : Nat) (body : ReqBody)
    (st : Nat) (eb m : String)
    (hcid : truthy body.client_id = true)
    (hsec : (truthy body.client_secret && (body.client_secret != ctx.A0_CLIENT_SECRET)) = false)
    (hid : (ctx.RP_ID == body.client_id) = true) :
    (env.upstream (sentRequest env ctx now us body) = .httpError st eb →
      (tokenHandler env ctx now us body).resp = ⟨st, .text eb⟩) ∧
    (env.upstream (sentRequest env ctx now us body) = .networkError m →
      (tokenHandler env ctx now us body).resp = ⟨500, .text m⟩) := by
  rw [tokenHandler_valid_eq env ctx now us body hcid hsec hid]
  constructor <;> intro hup <;> simp [exchangeStep, hup]

/-- Witness for C7: a 403 with body "denied" is relayed as such, and a
network failure message is answered as a 500. -/
theorem claim_C7_upstream_error_relay_witness :
    (tokenHandler (envWith (.ok ⟨some "RS256"⟩) (.httpError 403 "denied"))
        ctx0 0 0 reqValid).resp = ⟨403, .text "denied"⟩ ∧
    (tokenHandler (envWith (.ok ⟨some "RS256"⟩) (.networkError "socket hang up"))
        ctx0 0 0 reqValid).resp = ⟨500, .text "socket hang up"⟩ :=
  ⟨(claim_C7_upstream_error_relay (envWith (.ok ⟨some "RS256"⟩) (.httpError 403 "denied"))
      ctx0 0 0 reqValid 403 "denied" "m" rfl rfl rfl).1 rfl,
   (claim_C7_upstream_error_relay (envWith (.ok ⟨some "RS256"⟩) (.networkError "socket hang up"))
      ctx0 0 0 reqValid 0 "e" "socket hang up" rfl rfl rfl).2 rfl⟩

/-- Claim C9: a request without a (truthy) `client_secret` skips the
shared-secret check entirely — with a correct `client_id` it proceeds to
assertion issuance and the upstream exchange even when a shared secret
is configured; and the shared-secret 400 failure (identified by its
response and by no upstream request having been sent) happens exactly
when a truthy `client_secret` is present and differs from the configured
value — in particular whenever one is present and no shared secret is
configured. -/
theorem claim_C9_secret_check_skip (env : Env) (ctx : Ctx) (now us : Nat) (body : ReqBody) :
    (truthy body.client_secret = false → truthy body.client_id = true →
      (ctx.RP_ID == body.client_id) = true →
      (tokenHandler env ctx now us body).sent = some (sentRequest env ctx now us body)) ∧
    (((tokenHandler env ctx now us body).resp = ⟨400, .text "client auth failed by auth0!"⟩ ∧
        (tokenHandler env ctx now us body).sent = none) ↔
      (truthy body.client_id = true ∧ truthy body.client_secret = true ∧
        body.client_secret ≠ ctx.A0_CLIENT_SECRET)) ∧
    (truthy body.client_id = true → truthy body.client_secret = true →
      ctx.A0_CLIENT_SECRET = none →
      (tokenHandler env ctx now us body).resp =
        ⟨400, .text "client auth failed by auth0!"⟩) := by
  refine ⟨?_, ⟨?_, ?_⟩, ?_⟩
  · intro hns hcid hid
    rw [tokenHandler_valid_eq env ctx now us body hcid (by simp [hns]) hid]
    exact exchangeStep_sent env (sentRequest env ctx now us body)
      (generatePrivateKeyJWTForClientAssertion env ctx now us).2
  · rintro ⟨hresp, hsent⟩
    cases h1 : truthy body.client_id with
    | false =>
      rw [tokenHandler_missing env ctx now us body h1] at hresp
      simp at hresp
    | true =>
      cases h2 : (truthy body.client_secret && (body.client_secret != ctx.A0_CLIENT_SECRET)) with
      | true =>
        simp only [Bool.and_eq_true, bne_iff_ne] at h2
        exact ⟨rfl, h2.1, h2.2⟩
      | false =>
        cases h3 : (ctx.RP_ID == body.client_id) with
        | true =>
          rw [tokenHandler_valid_eq env ctx now us body h1 h2 h3, exchangeStep_sent] at hsent
          exact absurd hsent (by simp)
        | false =>
          rw [tokenHandler_unauthorized env ctx now us body h1 h2 h3] at hresp
          simp at hresp
  · rintro ⟨h1, h2, h3⟩
    rw [tokenHandler_authfail env ctx now us body h1 (by simp [h2, h3])]
    exact ⟨rfl, rfl⟩
  · intro h1 h2 hA0
    have hcs : body.client_secret ≠ ctx.A0_CLIENT_SECRET := by
      rw [hA0]
      cases hcs0 : body.client_secret with
      | none => rw [hcs0] at h2; exact absurd h2 (by decide)
      | some s => exact fun hx => Option.noConfusion hx
    rw [tokenHandler_authfail env ctx now us body h1 (by simp [h2, hcs])]

/-- Witness for C9: with the shared secret configured, a secretless
request with the right client id reaches the upstream exchange; a wrong
secret triggers exactly the auth-failure response with nothing sent; and
with no shared secret configured, a supplied secret is rejected. -/
theorem claim_C9_secret_check_skip_witness :
    (tokenHandler (envWith (.ok ⟨some "RS256"⟩) (.networkError "down")) ctx0 0 0 reqValid).sent =
      some (sentRequest (envWith (.ok ⟨some "RS256"⟩) (.networkError "down")) ctx0 0 0 reqValid) ∧
    ((tokenHandler (envWith (.ok ⟨some "RS256"⟩) (.networkError "down")) ctx0 0 0
        reqBadSecret).resp = ⟨400, .text "client auth failed by auth0!"⟩ ∧
      (tokenHandler (envWith (.ok ⟨some "RS256"⟩) (.networkError "down")) ctx0 0 0
        reqBadSecret).sent = none) ∧
    (tokenHandler (envWith (.ok ⟨some "RS256"⟩) (.networkError "down"))
        { ctx0 with A0_CLIENT_SECRET := none } 0 0 reqBadSecret).resp =
      ⟨400, .text "client auth failed by auth0!"⟩ :=
  ⟨(claim_C9_secret_check_skip (envWith (.ok ⟨some "RS256"⟩) (.networkError "down"))
      ctx0 0 0 reqValid).1 rfl rfl rfl,
   (claim_C9_secret_check_skip (envWith (.ok ⟨some "RS256"⟩) (.networkError "down"))
      ctx0 0 0 reqBadSecret).2.1.mpr ⟨rfl, rfl, by decide⟩,
   (claim_C9_secret_check_skip (envWith (.ok ⟨some "RS256"⟩) (.networkError "down"))
      { ctx0 with A0_CLIENT_SECRET := none } 0 0 reqBadSecret).2.2 rfl rfl rfl⟩

/-- Claim C10: on an upstream HTTP success whose body lacks `id_token`
or whose first token segment does not decode to valid JSON, the
algorithm-check step throws, the handler-boundary catch answers the
caller 500 with the exception message, and the handler — a total
function of the upstream response shape in this embedding — lets no
exception escape. -/
theorem claim_C10_parse_failure_500 (env : Env) (ctx : Ctx) (now us : Nat) (body : ReqBody)
    (b : UpstreamBody) (m : String)
    (hcid : truthy body.client_id = true)
    (hsec : (truthy body.client_secret && (body.client_secret != ctx.A0_CLIENT_SECRET)) = false)
    (hid : (ctx.RP_ID == body.client_id) = true)
    (hup : env.upstream (sentRequest env ctx now us body) = .success b)
    (hx : extractHeaderAlg env b = .error m) :
    (tokenHandler env ctx now us body).resp = ⟨500, .text m⟩ := by
  rw [tokenHandler_valid_eq env ctx now us body hcid hsec hid]
  simp [exchangeStep, hup, hx]

/-- Witness for C10: a success body without `id_token` yields the
TypeError message as a 500, and an undecodable first segment yields the
JSON parse error as a 500. -/
theorem claim_C10_parse_failure_500_witness :
    (tokenHandler (envWith (.ok ⟨some "RS256"⟩) (.success bodyNoTok))
        ctx0 0 0 reqValid).resp = ⟨500, .text splitOnUndefinedMsg⟩ ∧
    (tokenHandler (envWith (.error "Unexpected token") (.success bodyWithTok))
        ctx0 0 0 reqValid).resp = ⟨500, .text "Unexpected token"⟩ :=
  ⟨claim_C10_parse_failure_500 (envWith (.ok ⟨some "RS256"⟩) (.success bodyNoTok))
      ctx0 0 0 reqValid bodyNoTok splitOnUndefinedMsg rfl rfl rfl rfl rfl,
   claim_C10_parse_failure_500 (envWith (.error "Unexpected token") (.success bodyWithTok))
      ctx0 0 0 reqValid bodyWithTok "Unexpected token" rfl rfl rfl rfl rfl⟩

end PkJwtWrapper
